import Mathlib

/-!
Verification of the agentbrowser-pro CLI core: command parsing
(`src/cli/src/commands.rs`), session locator and daemon lifecycle
(`src/cli/src/connection.rs`).
-/

/-- Rust `str::to_lowercase` restricted to ASCII case mapping, which is all the
verb table exercises. -/
def rustToLowercase (s : String) : String :=
  ⟨s.data.map Char.toLower⟩

/-- Rust `str::parse::<u64>()`: optional leading `+`, one or more ASCII digits,
value must fit in 64 bits. -/
def rustParseU64 (s : String) : Option Nat :=
  let cs := match s.data with
    | '+' :: rest => rest
    | cs => cs
  if cs.isEmpty then none
  else if cs.all Char.isDigit then
    let n := cs.foldl (fun acc c => acc * 10 + (c.toNat - 48)) 0
    if n < 2 ^ 64 then some n else none
  else none

/-- Rust `str::parse::<u32>()`: optional leading `+`, one or more ASCII digits,
value must fit in 32 bits. -/
def rustParseU32 (s : String) : Option Nat :=
  let cs := match s.data with
    | '+' :: rest => rest
    | cs => cs
  if cs.isEmpty then none
  else if cs.all Char.isDigit then
    let n := cs.foldl (fun acc c => acc * 10 + (c.toNat - 48)) 0
    if n < 2 ^ 32 then some n else none
  else none

/-! ## Command model (src/cli/src/commands.rs) -/

/-- The `Flags` record from `src/cli/src/flags.rs`; `timeout` is the parsed
`--timeout=` value in milliseconds (a Rust `Option<u64>`). -/
structure Flags where
  json : Bool
  session : String
  headed : Bool
  executable_path : Option String
  extensions : List String
  timeout : Option Nat
  deriving DecidableEq, Repr

/-- Struct `CommandJson` from `src/cli/src/commands.rs` lines 7-29: the canonical
command descriptor. Each `Option` field carries
`#[serde(skip_serializing_if = "Option::is_none")]` in the source. -/
structure CommandJson where
  id : String
  action : String
  url : Option String
  selector : Option String
  text : Option String
  value : Option String
  key : Option String
  path : Option String
  interactive : Option Bool
  full_page : Option Bool
  timeout : Option Nat
  deriving DecidableEq, Repr

/-- Constructor `CommandJson::new` (lines 32-46). -/
def CommandJson.new (action : String) : CommandJson where
  id := "1"
  action := action
  url := none
  selector := none
  text := none
  value := none
  key := none
  path := none
  interactive := none
  full_page := none
  timeout := none

/-- Enum `ParseError` (lines 53-71). The `usage` strings are `&'static str` in the
source; `valid_options` is a static string slice list. -/
inductive ParseError where
  | UnknownCommand (command : String)
  | UnknownSubcommand (subcommand : String) (valid_options : List String)
  | MissingArguments (context : String) (usage : String)
  | InvalidValue (field : String) (value : String) (expected : String)
  deriving DecidableEq, Repr

deriving instance DecidableEq for Except

/-- Function `parse_command` (lines 112-541), arm for arm in source order. Rust's
`args[0].to_lowercase()` is `rustToLowercase`, `rest = &args[1..]` is the list
tail, and `rest[1..].join(" ")` is `String.intercalate " "` of the tail's
tail. -/
def parse_command (args : List String) (flags : Flags) : Except ParseError CommandJson :=
  match args with
  | [] => .error (.MissingArguments "command" "<command> [arguments]")
  | arg0 :: rest =>
    -- `command = args[0].to_lowercase()`; the match mirrors the source's
    -- `match command.as_str()` arm for arm.
    match rustToLowercase arg0 with
    -- Lifecycle
    | "daemon" => .ok (CommandJson.new "daemon")
    | "mcp" => .ok (CommandJson.new "mcp")
    | "launch" => .ok { CommandJson.new "launch" with timeout := flags.timeout }
    | "close" => .ok (CommandJson.new "close")
    -- Navigation
    | "navigate" | "open" | "goto" =>
      match rest with
      | [] => .error (.MissingArguments "navigate" "navigate <url>")
      | r0 :: _ =>
        .ok { CommandJson.new "navigate" with url := some r0, timeout := flags.timeout }
    | "back" => .ok (CommandJson.new "back")
    | "forward" => .ok (CommandJson.new "forward")
    | "reload" | "refresh" => .ok (CommandJson.new "reload")
    -- Interaction
    | "click" =>
      match rest with
      | [] => .error (.MissingArguments "click" "click <selector|ref>")
      | r0 :: _ =>
        .ok { CommandJson.new "click" with selector := some r0, timeout := flags.timeout }
    | "dblclick" | "doubleclick" =>
      match rest with
      | [] => .error (.MissingArguments "dblclick" "dblclick <selector|ref>")
      | r0 :: _ =>
        .ok { CommandJson.new "dblclick" with selector := some r0, timeout := flags.timeout }
    | "type" =>
      match rest with
      | r0 :: r1 :: rs =>
        .ok { CommandJson.new "type" with
                selector := some r0
                text := some (String.intercalate " " (r1 :: rs))
                timeout := flags.timeout }
      | _ => .error (.MissingArguments "type" "type <selector|ref> <text>")
    | "fill" =>
      match rest with
      | r0 :: r1 :: rs =>
        .ok { CommandJson.new "fill" with
                selector := some r0
                value := some (String.intercalate " " (r1 :: rs))
                timeout := flags.timeout }
      | _ => .error (.MissingArguments "fill" "fill <selector|ref> <value>")
    | "clear" =>
      match rest with
      | [] => .error (.MissingArguments "clear" "clear <selector|ref>")
      | r0 :: _ =>
        .ok { CommandJson.new "clear" with selector := some r0, timeout := flags.timeout }
    | "check" =>
      match rest with
      | [] => .error (.MissingArguments "check" "check <selector|ref>")
      | r0 :: _ =>
        .ok { CommandJson.new "check" with selector := some r0, timeout := flags.timeout }
    | "uncheck" =>
      match rest with
      | [] => .error (.MissingArguments "uncheck" "uncheck <selector|ref>")
      | r0 :: _ =>
        .ok { CommandJson.new "uncheck" with selector := some r0, timeout := flags.timeout }
    | "select" =>
      match rest with
      | r0 :: r1 :: _ =>
        .ok { CommandJson.new "select" with
                selector := some r0
                value := some r1
                timeout := flags.timeout }
      | _ => .error (.MissingArguments "select" "select <selector|ref> <value|label|index>")
    | "hover" =>
      match rest with
      | [] => .error (.MissingArguments "hover" "hover <selector|ref>")
      | r0 :: _ =>
        .ok { CommandJson.new "hover" with selector := some r0, timeout := flags.timeout }
    | "focus" =>
      match rest with
      | [] => .error (.MissingArguments "focus" "focus <selector|ref>")
      | r0 :: _ =>
        .ok { CommandJson.new "focus" with selector := some r0, timeout := flags.timeout }
    | "press" =>
      match rest with
      | [] => .error (.MissingArguments "press" "press <key> [selector]")
      | r0 :: rs =>
        .ok { CommandJson.new "press" with
                key := some r0
                selector := match rs with | [] => none | r1 :: _ => some r1
                timeout := flags.timeout }
    | "scroll" =>
      match rest with
      | [] => .ok (CommandJson.new "scroll")
      | r0 :: _ => .ok { CommandJson.new "scroll" with selector := some r0 }
    -- Information
    | "snapshot" =>
      match rest with
      | [] => .ok { CommandJson.new "snapshot" with interactive := some true }
      | r0 :: _ =>
        .ok { CommandJson.new "snapshot" with interactive := some true, selector := some r0 }
    | "screenshot" =>
      .ok { CommandJson.new "screenshot" with
              path := match rest with | [] => none | r0 :: _ => some r0
              full_page :=
                if (arg0 :: rest).any (fun a => a = "--full-page") then some true else none
              timeout := flags.timeout }
    | "title" | "gettitle" => .ok (CommandJson.new "getTitle")
    | "url" | "geturl" => .ok (CommandJson.new "getUrl")
    | "text" | "gettext" =>
      match rest with
      | [] => .error (.MissingArguments "text" "text <selector|ref>")
      | r0 :: _ =>
        .ok { CommandJson.new "getText" with selector := some r0, timeout := flags.timeout }
    | "html" | "gethtml" =>
      match rest with
      | [] => .ok (CommandJson.new "getHtml")
      | r0 :: _ => .ok { CommandJson.new "getHtml" with selector := some r0 }
    | "value" | "getvalue" =>
      match rest with
      | [] => .error (.MissingArguments "value" "value <selector|ref>")
      | r0 :: _ =>
        .ok { CommandJson.new "getValue" with selector := some r0, timeout := flags.timeout }
    | "count" | "getcount" =>
      match rest with
      | [] => .error (.MissingArguments "count" "count <selector>")
      | r0 :: _ => .ok { CommandJson.new "getCount" with selector := some r0 }
    -- State checks
    | "visible" | "isvisible" =>
      match rest with
      | [] => .error (.MissingArguments "visible" "visible <selector|ref>")
      | r0 :: _ => .ok { CommandJson.new "isVisible" with selector := some r0 }
    | "enabled" | "isenabled" =>
      match rest with
      | [] => .error (.MissingArguments "enabled" "enabled <selector|ref>")
      | r0 :: _ => .ok { CommandJson.new "isEnabled" with selector := some r0 }
    | "checked" | "ischecked" =>
      match rest with
      | [] => .error (.MissingArguments "checked" "checked <selector|ref>")
      | r0 :: _ => .ok { CommandJson.new "isChecked" with selector := some r0 }
    -- Wait
    | "wait" =>
      match rest with
      | [] => .ok { CommandJson.new "wait" with timeout := some 1000 }
      | r0 :: _ =>
        match rustParseU64 r0 with
        | some t => .ok { CommandJson.new "wait" with timeout := some t }
        | none => .ok { CommandJson.new "waitForSelector" with selector := some r0 }
    -- Frames
    | "frames" | "getframes" => .ok (CommandJson.new "getFrames")
    | "frame" | "switchtoframe" =>
      match rest with
      | [] => .error (.MissingArguments "frame" "frame <selector|name|url>")
      | r0 :: _ => .ok { CommandJson.new "switchToFrame" with selector := some r0 }
    | "mainframe" => .ok (CommandJson.new "switchToMainFrame")
    -- Pages
    | "pages" | "getpages" => .ok (CommandJson.new "getPages")
    | "newpage" =>
      match rest with
      | [] => .ok (CommandJson.new "newPage")
      | r0 :: _ => .ok { CommandJson.new "newPage" with url := some r0 }
    | "switchpage" =>
      match rest with
      | [] => .error (.MissingArguments "switchpage" "switchpage <index|url|title>")
      | r0 :: _ =>
        match rustParseU32 r0 with
        | some index => .ok { CommandJson.new "switchPage" with value := some (toString index) }
        | none => .ok { CommandJson.new "switchPage" with url := some r0 }
    | "closepage" => .ok (CommandJson.new "closePage")
    -- JavaScript
    | "eval" | "evaluate" =>
      match rest with
      | [] => .error (.MissingArguments "eval" "eval <script>")
      | _ => .ok { CommandJson.new "evaluate" with text := some (String.intercalate " " rest) }
    -- Cookies
    | "cookies" | "getcookies" => .ok (CommandJson.new "getCookies")
    | "clearcookies" => .ok (CommandJson.new "clearCookies")
    -- Storage
    | "localstorage" | "getlocalstorage" =>
      match rest with
      | [] => .ok (CommandJson.new "getLocalStorage")
      | r0 :: _ => .ok { CommandJson.new "getLocalStorage" with key := some r0 }
    | "clearlocalstorage" => .ok (CommandJson.new "clearLocalStorage")
    -- PDF
    | "pdf" =>
      match rest with
      | [] => .ok (CommandJson.new "pdf")
      | r0 :: _ => .ok { CommandJson.new "pdf" with path := some r0 }
    -- Streaming
    | "stream" | "startstream" => .ok (CommandJson.new "startStream")
    | "stopstream" => .ok (CommandJson.new "stopStream")
    -- Unknown command
    | command => .error (.UnknownCommand command)

/-- Every canonical `action` string that an `Ok` arm of `parse_command` can
produce, in source order. All are non-empty camel-case verbs. -/
def canonicalActions : List String :=
  ["daemon", "mcp", "launch", "close", "navigate", "back", "forward", "reload",
   "click", "dblclick", "type", "fill", "clear", "check", "uncheck", "select",
   "hover", "focus", "press", "scroll", "snapshot", "screenshot", "getTitle",
   "getUrl", "getText", "getHtml", "getValue", "getCount", "isVisible",
   "isEnabled", "isChecked", "wait", "waitForSelector", "getFrames",
   "switchToFrame", "switchToMainFrame", "getPages", "newPage", "switchPage",
   "closePage", "evaluate", "getCookies", "clearCookies", "getLocalStorage",
   "clearLocalStorage", "pdf", "startStream", "stopStream"]

/-- The lowercased surface verbs whose `parse_command` arm executes
`cmd.timeout = flags.timeout` in the source (aliases included). -/
def flagTimeoutVerbs : List String :=
  ["launch", "navigate", "open", "goto", "click", "dblclick", "doubleclick",
   "type", "fill", "clear", "check", "uncheck", "select", "hover", "focus",
   "press", "screenshot", "text", "gettext", "value", "getvalue"]

/-- The two `ParseError` constructors `parse_command` actually produces. -/
def isProducedFailure (e : ParseError) : Bool :=
  match e with
  | .UnknownCommand _ => true
  | .MissingArguments _ _ => true
  | .UnknownSubcommand _ _ => false
  | .InvalidValue _ _ _ => false

/-! ## Wire values (serde_json) -/

/-- JSON values as manipulated through serde_json. -/
inductive Json where
  | null
  | bool (b : Bool)
  | num (n : Int)
  | str (s : String)
  | arr (elems : List Json)
  | obj (fields : List (String × Json))

/-- Whether a JSON value is the literal `null`. -/
def Json.isNull : Json → Bool
  | .null => true
  | _ => false

/-- One optional string field under serde's
`#[serde(skip_serializing_if = "Option::is_none")]`: absent means no key at
all in the object. -/
def optStrField (k : String) : Option String → List (String × Json)
  | some s => [(k, .str s)]
  | none => []

/-- One optional boolean field, skipped entirely when `None`. -/
def optBoolField (k : String) : Option Bool → List (String × Json)
  | some b => [(k, .bool b)]
  | none => []

/-- One optional `u64` field, skipped entirely when `None`. -/
def optNatField (k : String) : Option Nat → List (String × Json)
  | some n => [(k, .num n)]
  | none => []

/-- The object `CommandJson::to_json` serializes: serde emits the struct
fields in declaration order (`id`, `action`, then the nine optionals), and
each `None` optional is omitted — never emitted as `null`. The serialized
key of `full_page` is `full_page` (the struct carries no rename attribute). -/
def CommandJson.serializedFields (c : CommandJson) : List (String × Json) :=
  [("id", .str c.id), ("action", .str c.action)]
    ++ optStrField "url" c.url
    ++ optStrField "selector" c.selector
    ++ optStrField "text" c.text
    ++ optStrField "value" c.value
    ++ optStrField "key" c.key
    ++ optStrField "path" c.path
    ++ optBoolField "interactive" c.interactive
    ++ optBoolField "full_page" c.full_page
    ++ optNatField "timeout" c.timeout

/-! ## Protocol client response decoding (src/cli/src/connection.rs) -/

/-- Struct `Response` (connection.rs lines 17-23). `id` and `success` are plain
fields, `result` and `error` are `Option`s. -/
structure Response where
  id : String
  success : Bool
  result : Option Json
  error : Option String

/-- First value stored under key `k`, as serde's map visitor sees it. -/
def lookupKey (fields : List (String × Json)) (k : String) : Option Json :=
  (fields.find? (fun kv => kv.1 == k)).map Prod.snd

/-- Number of entries under key `k`; serde rejects duplicates of a known
field. -/
def countKey (fields : List (String × Json)) (k : String) : Nat :=
  (fields.filter (fun kv => kv.1 == k)).length

/-- The serde-derived `Deserialize` for `Response`, as invoked by
`send_command` (connection.rs lines 214-222) via `serde_json::from_str`:
the value must be an object; `id` must be present as a string and `success`
as a boolean (non-`Option` fields have no default); `result` and `error`
default to `None` when absent and accept an explicit `null`; unknown fields
are ignored; a duplicated known field is an error. -/
def decodeResponse (j : Json) : Option Response :=
  match j with
  | .obj fields =>
    if countKey fields "id" ≤ 1 ∧ countKey fields "success" ≤ 1 ∧
        countKey fields "result" ≤ 1 ∧ countKey fields "error" ≤ 1 then
      match lookupKey fields "id", lookupKey fields "success" with
      | some (.str i), some (.bool s) =>
        let result : Option Json :=
          match lookupKey fields "result" with
          | some .null => none
          | some v => some v
          | none => none
        match lookupKey fields "error" with
        | some .null => some ⟨i, s, result, none⟩
        | some (.str e) => some ⟨i, s, result, some e⟩
        | some _ => none
        | none => some ⟨i, s, result, none⟩
      | _, _ => none
    else none
  | _ => none

/-! ## Session locator (src/cli/src/connection.rs lines 30-45) -/

/-- Rust `Path::join` for the file names built here: the joined component
always begins with `agentbrowser-pro-`, never with a separator, so `join`
appends it under the base directory. -/
def pathJoin (base component : String) : String :=
  base ++ "/" ++ component

/-- Function `get_socket_path` (lines 30-36), with `env::temp_dir()` passed
explicitly; the session name is interpolated verbatim into the file name. -/
def get_socket_path (tmpDir session : String) : String :=
  pathJoin tmpDir ("agentbrowser-pro-" ++ session ++ ".sock")

/-- Function `get_pid_file` (lines 39-45). -/
def get_pid_file (tmpDir session : String) : String :=
  pathJoin tmpDir ("agentbrowser-pro-" ++ session ++ ".pid")

/-- Split a character list at `/` separators. -/
def splitSlashAux : List Char → List Char → List String
  | [], acc => [⟨acc.reverse⟩]
  | '/' :: cs, acc => ⟨acc.reverse⟩ :: splitSlashAux cs []
  | c :: cs, acc => splitSlashAux cs (c :: acc)

/-- Slash-separated path segments, empty segments dropped. -/
def pathSegments (p : String) : List String :=
  (splitSlashAux p.data []).filter (fun s => s != "")

/-- POSIX resolution of `.` and `..` segments against an absolute root. -/
def resolveDotDot (segs : List String) : List String :=
  segs.foldl
    (fun acc s => if s = ".." then acc.dropLast else if s = "." then acc else acc ++ [s]) []

/-! ## Daemon lifecycle (src/cli/src/connection.rs lines 47-192) -/

/-- Outcome of `BufReader::read_line` on the probe connection: `ok n line` is
`Ok(n)` with `n` bytes appended to the buffer (`n = 0` at end-of-stream with
no data); `err` is any `Err`, including a read timeout. -/
inductive ReadLineOutcome where
  | ok (bytesRead : Nat) (line : String)
  | err
  deriving DecidableEq, Repr

/-- The observable transport events of one readiness probe against a session
socket: whether `UnixStream::connect` succeeded, whether each of the two
`write_all` calls succeeded, and what `read_line` returned within the
2-second timeout (a timed-out read surfaces as `err`). -/
structure SocketProbe where
  connectOk : Bool
  writePingOk : Bool
  writeNewlineOk : Bool
  readOutcome : ReadLineOutcome
  deriving DecidableEq, Repr

/-- Function `is_daemon_ready` (lines 73-100) over the probe's transport events: on a
successful connect it writes the fixed ping line, fails on either write
error, then returns `Ok(_) => true, Err(_) => false` on `read_line` — the
returned byte count and the line's content are never examined. -/
def is_daemon_ready (p : SocketProbe) : Bool :=
  if p.connectOk then
    if !p.writePingOk then false
    else if !p.writeNewlineOk then false
    else
      match p.readOutcome with
      | .ok _ _ => true
      | .err => false
  else false

/-- Modelled from the claim's words for C3: ready only if a parseable line is
received, and "end-of-stream with no data" is explicitly not one. Receipt of
at least one byte is a necessary condition of receiving a parseable line, so
this is the weakest reading of the claim's readiness condition. -/
def claimReadyNecessary (p : SocketProbe) : Bool :=
  p.connectOk && p.writePingOk && p.writeNewlineOk &&
    (match p.readOutcome with
     | .ok n _ => n != 0
     | .err => false)

/-- Rust `str::trim()`: strip leading and trailing whitespace. -/
def rustTrim (s : String) : String :=
  ⟨((s.data.dropWhile Char.isWhitespace).reverse.dropWhile Char.isWhitespace).reverse⟩

/-- Rust `str::parse::<i32>()`: optional sign, ASCII digits, 32-bit range. -/
def rustParseI32 (s : String) : Option Int :=
  let digitsVal : List Char → Nat := fun cs =>
    cs.foldl (fun acc c => acc * 10 + (c.toNat - 48)) 0
  let core : List Char → Bool := fun cs => !cs.isEmpty && cs.all Char.isDigit
  match s.data with
  | '-' :: cs =>
    if core cs then (if digitsVal cs ≤ 2 ^ 31 then some (-(digitsVal cs : Int)) else none)
    else none
  | '+' :: cs =>
    if core cs then (if digitsVal cs < 2 ^ 31 then some (digitsVal cs) else none) else none
  | cs =>
    if core cs then (if digitsVal cs < 2 ^ 31 then some (digitsVal cs) else none) else none

/-- Struct `DaemonResult` (lines 25-27). -/
structure DaemonResult where
  already_running : Bool
  deriving DecidableEq, Repr

/-- Filesystem and process state of one session, as observed through the
operations of connection.rs: the session's pid file content (`none` when the
file is absent), whether reading it succeeds, whether its socket file
exists, which pids name a live process (the `libc::kill(pid, 0) == 0`
probe), the transport events a readiness probe sees right now, whether the
best-effort `fs::remove_file` cleanups succeed, the `find_daemon_path`
resolution, the spawn outcome with its error text, and the readiness
outcomes the post-spawn 100 ms poll observes. -/
structure DaemonWorld where
  pidFile : Option String
  pidReadOk : Bool
  socketFileExists : Bool
  processAlive : Int → Bool
  probe : SocketProbe
  removeSocketOk : Bool
  removePidOk : Bool
  daemonPath : Option String
  spawnOk : Bool
  spawnErrMsg : String
  pollProbe : Nat → Bool

/-- Function `is_daemon_running` (lines 48-70): pid file must exist, be readable,
parse as an `i32`, and name a live process. -/
def is_daemon_running (w : DaemonWorld) : Bool :=
  match w.pidFile with
  | none => false
  | some content =>
    if w.pidReadOk then
      match rustParseI32 (rustTrim content) with
      | some pid => w.processAlive pid
      | none => false
    else false

/-- Result of one `ensure_daemon` run: the returned value, the session state
it leaves behind, and how many worker processes it spawned. -/
structure EnsureOutcome where
  result : Except String DaemonResult
  world : DaemonWorld
  spawned : Nat

/-- Function `ensure_daemon` (lines 124-192) over the session's observable state.
The fast path returns `{already_running: true}` before touching any file.
Otherwise stale files are removed best-effort (failure ignored), the daemon
script is resolved, the worker is spawned detached, and readiness is polled
up to 50 times; the early-return poll loop succeeds iff some attempt's probe
succeeds. The spawned worker's own writes (pid file, socket) are external
effects outside this model. -/
def ensure_daemon (w : DaemonWorld) : EnsureOutcome :=
  if is_daemon_running w && is_daemon_ready w.probe then
    ⟨.ok ⟨true⟩, w, 0⟩
  else
    let w1 : DaemonWorld :=
      { w with
        socketFileExists :=
          if w.socketFileExists && w.removeSocketOk then false else w.socketFileExists
        pidFile :=
          match w.pidFile with
          | some c => if w.removePidOk then none else some c
          | none => none }
    match w.daemonPath with
    | none => ⟨.error "Could not find daemon script", w1, 0⟩
    | some _ =>
      if w.spawnOk then
        if (List.range 50).any w.pollProbe then ⟨.ok ⟨false⟩, w1, 1⟩
        else ⟨.error "Daemon failed to start within 5 seconds", w1, 1⟩
      else ⟨.error ("Failed to start daemon: " ++ w.spawnErrMsg), w1, 0⟩

set_option maxHeartbeats 4000000 in
/-- Master case analysis of successful parses: every success carries a
non-empty canonical action, and `flags.timeout` is injected exactly for the
verbs of `flagTimeoutVerbs` (with `wait` managing its own timeout). -/
theorem parse_command_ok_shape
    (arg0 : String) (rest : List String) (flags : Flags) (c : CommandJson)
    (h : parse_command (arg0 :: rest) flags = .ok c) :
    c.action ≠ "" ∧ c.action ∈ canonicalActions ∧
      (rustToLowercase arg0 ∈ flagTimeoutVerbs → c.timeout = flags.timeout) ∧
      (rustToLowercase arg0 ∉ flagTimeoutVerbs → rustToLowercase arg0 ≠ "wait" →
        c.timeout = none) := by
  revert h
  simp only [parse_command]
  generalize rustToLowercase arg0 = command
  intro h
  split at h <;> (try split at h) <;> (try split at h) <;>
    (try (injection h with h; subst h)) <;> (try injection h) <;>
    simp [canonicalActions, flagTimeoutVerbs, CommandJson.new]

set_option maxHeartbeats 4000000 in
/-- Master case analysis of failing parses: `parse_command` only ever emits
`UnknownCommand` or `MissingArguments`. -/
theorem parse_command_error_shape
    (args : List String) (flags : Flags) (e : ParseError)
    (h : parse_command args flags = .error e) :
    isProducedFailure e = true := by
  cases args with
  | nil =>
    simp only [parse_command] at h
    injection h with h
    subst h
    rfl
  | cons arg0 rest =>
    revert h
    simp only [parse_command]
    generalize rustToLowercase arg0 = command
    intro h
    split at h <;> (try split at h) <;> (try split at h) <;>
      (try (injection h with h; subst h)) <;> (try injection h) <;>
      simp [isProducedFailure]

/-! ## Claim C1 — timeout-injecting verb set -/

/-- C1 counterexample: the claim lists thirteen verbs as the exact set that
injects the configured `timeoutMillis` and says any other verb's descriptor
never carries a timeout; yet `launch` (which is not in that list) parses,
with `--timeout=7`, to a descriptor carrying `timeout = 7`. -/
theorem C1_counterexample :
    parse_command ["launch"]
        { json := false, session := "default", headed := false, executable_path := none,
          extensions := [], timeout := some 7 } =
      .ok { CommandJson.new "launch" with timeout := some 7 } ∧
    "launch" ∉
      ["navigate", "click", "type", "fill", "clear", "check", "uncheck", "select",
       "hover", "focus", "press", "text", "screenshot"] :=
  ⟨rfl, by decide⟩

/-- C1 (amended): the verbs whose arm injects `flags.timeout` are exactly
those of `flagTimeoutVerbs` — the claim's thirteen plus `launch`, `dblclick`
(and alias `doubleclick`) and `value` (alias `getvalue`) — while `wait` sets
its own timeout and every remaining verb's descriptor carries none. -/
theorem C1_timeout_injection
    (arg0 : String) (rest : List String) (flags : Flags) (c : CommandJson)
    (h : parse_command (arg0 :: rest) flags = .ok c) :
    (rustToLowercase arg0 ∈ flagTimeoutVerbs → c.timeout = flags.timeout) ∧
    (rustToLowercase arg0 ∉ flagTimeoutVerbs → rustToLowercase arg0 ≠ "wait" →
      c.timeout = none) :=
  (parse_command_ok_shape arg0 rest flags c h).2.2

/-- C1 witness: the amended theorem applied to `click #btn` under
`--timeout=9`. -/
theorem C1_timeout_injection_witness :
    (rustToLowercase "click" ∈ flagTimeoutVerbs →
      ({ CommandJson.new "click" with selector := some "#btn", timeout := some 9 } :
        CommandJson).timeout = some 9) ∧
    (rustToLowercase "click" ∉ flagTimeoutVerbs → rustToLowercase "click" ≠ "wait" →
      ({ CommandJson.new "click" with selector := some "#btn", timeout := some 9 } :
        CommandJson).timeout = none) :=
  C1_timeout_injection "click" ["#btn"]
    { json := false, session := "default", headed := false, executable_path := none,
      extensions := [], timeout := some 9 } _ rfl

/-! ## Claim C2 — `wait` dual interpretation -/

/-- C2: `wait` tries the non-negative-integer reading of its first argument
first and only then falls back to the selector reading: `wait 500` gives
`{action: wait, timeout: 500}`, `wait #banner` gives
`{action: waitForSelector, selector: #banner}`, bare `wait` gives
`{action: wait, timeout: 1000}`. -/
theorem C2_wait_numeric_first (flags : Flags) :
    (∀ (a : String) (rs : List String),
        parse_command ("wait" :: a :: rs) flags =
          match rustParseU64 a with
          | some t => .ok { CommandJson.new "wait" with timeout := some t }
          | none => .ok { CommandJson.new "waitForSelector" with selector := some a }) ∧
    parse_command ["wait", "500"] flags =
      .ok { CommandJson.new "wait" with timeout := some 500 } ∧
    parse_command ["wait", "#banner"] flags =
      .ok { CommandJson.new "waitForSelector" with selector := some "#banner" } ∧
    parse_command ["wait"] flags =
      .ok { CommandJson.new "wait" with timeout := some 1000 } :=
  ⟨fun _ _ => rfl, rfl, rfl, rfl⟩

/-! ## Claim C3 — readiness probe -/

/-- C3 counterexample: the claim says a reply that is not a parseable line —
"for example, end-of-stream with no data" — yields not ready; but
`is_daemon_ready` maps `read_line`'s `Ok(0)` (EOF, empty buffer) to ready,
never parsing anything. -/
theorem C3_counterexample :
    is_daemon_ready ⟨true, true, true, .ok 0 ""⟩ = true ∧
    claimReadyNecessary ⟨true, true, true, .ok 0 ""⟩ = false :=
  ⟨rfl, rfl⟩

/-- C3 (amended): the worker is reported ready iff the socket connect
succeeds, both probe writes succeed, and `read_line` returns `Ok` — any `Ok`,
including `Ok(0)` at end-of-stream with no data; the line's content is never
parsed. Connect failure, a write failure, or a read error/timeout give not
ready. -/
theorem C3_ready_iff (p : SocketProbe) :
    is_daemon_ready p =
      (p.connectOk && p.writePingOk && p.writeNewlineOk &&
        (match p.readOutcome with
         | .ok _ _ => true
         | .err => false)) := by
  obtain ⟨c, w1, w2, r⟩ := p
  cases c <;> cases w1 <;> cases w2 <;> cases r <;> rfl

/-! ## Claim C4 — response `id` field -/

/-- C4 counterexample: `Response.id` is a non-`Option` `String`, so serde
requires it; `{"success": true, "result": {}}` is rejected as malformed, not
decoded. -/
theorem C4_counterexample :
    decodeResponse (.obj [("success", .bool true), ("result", .obj [])]) = none :=
  rfl

/-- C4 (amended): decoding succeeds for JSON objects carrying both a string
`id` and a boolean `success` (with `result`/`error` optional), and an object
lacking `id` — such as `{"success": true, "result": {}}` — is a
malformed-response failure. -/
theorem C4_response_id_required :
    (∀ (i : String) (b : Bool),
        decodeResponse (.obj [("id", .str i), ("success", .bool b)]) =
          some ⟨i, b, none, none⟩) ∧
    (∀ (i : String) (b : Bool),
        decodeResponse (.obj [("id", .str i), ("success", .bool b), ("result", .obj [])]) =
          some ⟨i, b, some (.obj []), none⟩) ∧
    decodeResponse (.obj [("success", .bool true), ("result", .obj [])]) = none :=
  ⟨fun _ _ => rfl, fun _ _ => rfl, rfl⟩

/-! ## Claim C5 — ensure-daemon idempotent fast path -/

/-- C5: when the session's worker is alive and ready, `ensure_daemon` returns
`{alreadyRunning: true}`, spawns nothing, and leaves the session state —
socket file and pid file included — untouched; run twice in that state it
does so both times, spawning nothing on the second call either. -/
theorem C5_ensure_daemon_idempotent (w : DaemonWorld)
    (hrun : is_daemon_running w = true) (hready : is_daemon_ready w.probe = true) :
    ensure_daemon w = ⟨.ok ⟨true⟩, w, 0⟩ ∧
    ensure_daemon (ensure_daemon w).world = ⟨.ok ⟨true⟩, w, 0⟩ := by
  have h1 : ensure_daemon w = ⟨.ok ⟨true⟩, w, 0⟩ := by
    unfold ensure_daemon
    rw [hrun, hready]
    simp
  refine ⟨h1, ?_⟩
  rw [h1]
  exact h1

/-- A session whose pid file names live process 42 and whose socket answers
the probe with a full line. -/
def readyWorld : DaemonWorld where
  pidFile := some "42"
  pidReadOk := true
  socketFileExists := true
  processAlive := fun pid => pid == 42
  probe := ⟨true, true, true, .ok 25 "pong"⟩
  removeSocketOk := true
  removePidOk := true
  daemonPath := some "/opt/app/dist/core/daemon.js"
  spawnOk := true
  spawnErrMsg := ""
  pollProbe := fun _ => true

/-- C5 witness: the theorem applied to `readyWorld`. -/
theorem C5_ensure_daemon_idempotent_witness :
    ensure_daemon readyWorld = ⟨.ok ⟨true⟩, readyWorld, 0⟩ ∧
    ensure_daemon (ensure_daemon readyWorld).world = ⟨.ok ⟨true⟩, readyWorld, 0⟩ :=
  C5_ensure_daemon_idempotent readyWorld (by decide) (by decide)

/-! ## Claim C6 — totality of `parse` -/

/-- C6: for every token list (empty and single-token included) and flags
record, `parse_command` — a total Lean function, so free of panics — returns
either a descriptor whose action is a non-empty canonical camel-case verb or
a structured `ParseError`. -/
theorem C6_parse_total (args : List String) (flags : Flags) :
    (∃ c, parse_command args flags = .ok c ∧ c.action ≠ "" ∧ c.action ∈ canonicalActions) ∨
    (∃ e, parse_command args flags = .error e) := by
  cases args with
  | nil => exact .inr ⟨.MissingArguments "command" "<command> [arguments]", rfl⟩
  | cons a0 rest =>
    cases hp : parse_command (a0 :: rest) flags with
    | error e => exact .inr ⟨e, rfl⟩
    | ok c =>
      have hs := parse_command_ok_shape a0 rest flags c hp
      exact .inl ⟨c, rfl, hs.1, hs.2.1⟩

/-! ## Claim C7 — alias equivalence -/

set_option maxHeartbeats 4000000 in
/-- C7: for every alias group of the verb table, parsing any alias of the
group with the same remaining arguments and flags yields identical
descriptors (the source always sets `id := "1"`, so they agree on `id`
too). -/
theorem C7_alias_equiv (rest : List String) (flags : Flags) :
    parse_command ("navigate" :: rest) flags = parse_command ("open" :: rest) flags ∧
    parse_command ("open" :: rest) flags = parse_command ("goto" :: rest) flags ∧
    parse_command ("dblclick" :: rest) flags = parse_command ("doubleclick" :: rest) flags ∧
    parse_command ("reload" :: rest) flags = parse_command ("refresh" :: rest) flags ∧
    parse_command ("title" :: rest) flags = parse_command ("gettitle" :: rest) flags ∧
    parse_command ("url" :: rest) flags = parse_command ("geturl" :: rest) flags ∧
    parse_command ("text" :: rest) flags = parse_command ("gettext" :: rest) flags ∧
    parse_command ("html" :: rest) flags = parse_command ("gethtml" :: rest) flags ∧
    parse_command ("value" :: rest) flags = parse_command ("getvalue" :: rest) flags ∧
    parse_command ("count" :: rest) flags = parse_command ("getcount" :: rest) flags ∧
    parse_command ("visible" :: rest) flags = parse_command ("isvisible" :: rest) flags ∧
    parse_command ("enabled" :: rest) flags = parse_command ("isenabled" :: rest) flags ∧
    parse_command ("checked" :: rest) flags = parse_command ("ischecked" :: rest) flags ∧
    parse_command ("frames" :: rest) flags = parse_command ("getframes" :: rest) flags ∧
    parse_command ("frame" :: rest) flags = parse_command ("switchtoframe" :: rest) flags ∧
    parse_command ("pages" :: rest) flags = parse_command ("getpages" :: rest) flags ∧
    parse_command ("eval" :: rest) flags = parse_command ("evaluate" :: rest) flags ∧
    parse_command ("cookies" :: rest) flags = parse_command ("getcookies" :: rest) flags ∧
    parse_command ("localstorage" :: rest) flags =
      parse_command ("getlocalstorage" :: rest) flags ∧
    parse_command ("stream" :: rest) flags = parse_command ("startstream" :: rest) flags :=
  ⟨rfl, rfl, rfl, rfl, rfl, rfl, rfl, rfl, rfl, rfl, rfl, rfl, rfl, rfl, rfl, rfl, rfl,
   rfl, rfl, rfl⟩

/-! ## Claim C8 — serialized form omits unset fields -/

/-- A key occurs among an optional string field's serialized keys iff it is
that field's key and the field is set. -/
theorem mem_map_fst_optStrField (k' k : String) (o : Option String) :
    (∃ x, (k', x) ∈ optStrField k o) ↔ k' = k ∧ o.isSome = true := by
  cases o <;> simp [optStrField]

/-- Same fact for optional boolean fields. -/
theorem mem_map_fst_optBoolField (k' k : String) (o : Option Bool) :
    (∃ x, (k', x) ∈ optBoolField k o) ↔ k' = k ∧ o.isSome = true := by
  cases o <;> simp [optBoolField]

/-- Same fact for optional integer fields. -/
theorem mem_map_fst_optNatField (k' k : String) (o : Option Nat) :
    (∃ x, (k', x) ∈ optNatField k o) ↔ k' = k ∧ o.isSome = true := by
  cases o <;> simp [optNatField]

/-- No optional string field ever serializes a `null` value. -/
theorem all_notNull_optStrField (k : String) (o : Option String) :
    (optStrField k o).all (fun kv => !kv.2.isNull) = true := by
  cases o <;> rfl

/-- No optional boolean field ever serializes a `null` value. -/
theorem all_notNull_optBoolField (k : String) (o : Option Bool) :
    (optBoolField k o).all (fun kv => !kv.2.isNull) = true := by
  cases o <;> rfl

/-- No optional integer field ever serializes a `null` value. -/
theorem all_notNull_optNatField (k : String) (o : Option Nat) :
    (optNatField k o).all (fun kv => !kv.2.isNull) = true := by
  cases o <;> rfl

/-- C8: the serialized wire object of a descriptor has a key for exactly the
fields that are set — `id` and `action` always, each optional field iff it
is `some` — and no value is ever the `null` placeholder. -/
theorem C8_serialized_fields_exact (c : CommandJson) :
    ("id" ∈ c.serializedFields.map Prod.fst) ∧
    ("action" ∈ c.serializedFields.map Prod.fst) ∧
    (("url" ∈ c.serializedFields.map Prod.fst) ↔ c.url.isSome = true) ∧
    (("selector" ∈ c.serializedFields.map Prod.fst) ↔ c.selector.isSome = true) ∧
    (("text" ∈ c.serializedFields.map Prod.fst) ↔ c.text.isSome = true) ∧
    (("value" ∈ c.serializedFields.map Prod.fst) ↔ c.value.isSome = true) ∧
    (("key" ∈ c.serializedFields.map Prod.fst) ↔ c.key.isSome = true) ∧
    (("path" ∈ c.serializedFields.map Prod.fst) ↔ c.path.isSome = true) ∧
    (("interactive" ∈ c.serializedFields.map Prod.fst) ↔ c.interactive.isSome = true) ∧
    (("full_page" ∈ c.serializedFields.map Prod.fst) ↔ c.full_page.isSome = true) ∧
    (("timeout" ∈ c.serializedFields.map Prod.fst) ↔ c.timeout.isSome = true) ∧
    c.serializedFields.all (fun kv => !kv.2.isNull) = true := by
  have hnull : c.serializedFields.all (fun kv => !kv.2.isNull) = true := by
    simp only [CommandJson.serializedFields, List.all_append, all_notNull_optStrField,
      all_notNull_optBoolField, all_notNull_optNatField]
    rfl
  refine ⟨?_, ?_, ?_, ?_, ?_, ?_, ?_, ?_, ?_, ?_, ?_, hnull⟩ <;>
    simp [CommandJson.serializedFields, mem_map_fst_optStrField, mem_map_fst_optBoolField,
      mem_map_fst_optNatField]

/-! ## Claim C9 — session-name path safety -/

/-- C9 counterexample: nothing rejects or escapes path separators in the
session name; with temp dir `/tmp`, session name `../../../etc/passwd`
produces a socket path that resolves to `/etc/passwd.sock`, outside the
shared temporary directory (its resolved segments do not start with
`tmp`). -/
theorem C9_counterexample :
    resolveDotDot (pathSegments (get_socket_path "/tmp" "../../../etc/passwd")) =
      ["etc", "passwd.sock"] ∧
    (resolveDotDot (pathSegments (get_socket_path "/tmp" "../../../etc/passwd"))).head? ≠
      some "tmp" :=
  ⟨by decide, by decide⟩

/-- C9 (amended): the locator performs no rejection and no escaping — the
session name is embedded verbatim in the single file-name component joined
under the temp dir — so any separator in the session name survives into that
component, and names with enough `..` segments yield paths that resolve
outside the temp dir. -/
theorem C9_verbatim_embedding (tmpDir session : String) :
    get_socket_path tmpDir session =
      tmpDir ++ "/" ++ ("agentbrowser-pro-" ++ session ++ ".sock") ∧
    get_pid_file tmpDir session =
      tmpDir ++ "/" ++ ("agentbrowser-pro-" ++ session ++ ".pid") ∧
    ('/' ∈ session.data → '/' ∈ ("agentbrowser-pro-" ++ session ++ ".sock").data) := by
  refine ⟨rfl, rfl, fun hmem => ?_⟩
  simp only [String.data_append, List.mem_append]
  exact .inl (.inr hmem)

/-- C9 witness: the amended theorem at session name `a/b`. -/
theorem C9_verbatim_embedding_witness :
    get_socket_path "/tmp" "a/b" = "/tmp" ++ "/" ++ ("agentbrowser-pro-" ++ "a/b" ++ ".sock") ∧
    get_pid_file "/tmp" "a/b" = "/tmp" ++ "/" ++ ("agentbrowser-pro-" ++ "a/b" ++ ".pid") ∧
    ('/' ∈ ("a/b" : String).data → '/' ∈ ("agentbrowser-pro-" ++ "a/b" ++ ".sock").data) :=
  C9_verbatim_embedding "/tmp" "a/b"

/-! ## Claim C10 — failure taxonomy actually produced -/

/-- C10: whenever `parse_command` fails it returns an `UnknownCommand` or a
`MissingArguments`; the `UnknownSubcommand` and `InvalidValue` constructors
are never produced. -/
theorem C10_failure_kinds (args : List String) (flags : Flags) :
    match parse_command args flags with
    | .ok _ => True
    | .error e =>
        (∃ cmd, e = .UnknownCommand cmd) ∨
        (∃ ctx usage, e = .MissingArguments ctx usage) := by
  cases hp : parse_command args flags with
  | ok _ => trivial
  | error e =>
    have he := parse_command_error_shape args flags e hp
    cases e with
    | UnknownCommand cmd => exact .inl ⟨cmd, rfl⟩
    | MissingArguments ctx usage => exact .inr ⟨ctx, usage, rfl⟩
    | UnknownSubcommand sub opts => exact absurd he (by simp [isProducedFailure])
    | InvalidValue f v ex => exact absurd he (by simp [isProducedFailure])
